import Mathlib

/-!
Verification development for `elib_wx` (module `elib_wx/weather_abc.py`).

The repository exposes an abstract `WeatherABC` class: a station-identifier
property with validation and derived name lookup, text-rendering entry points
`as_str` / `as_speech` delegating to an internal `_as_str(spoken)` renderer, and
an abstract contract for `is_cavok`, `apply_to_mission_dict`, `apply_to_miz`,
`generate_dcs_weather`, `_from_miz_file` and the per-field sub-renderers.

Concrete code present in `weather_abc.py` (the `station_icao` getter/setter and
the `as_str` / `as_speech` delegation) is embedded directly.  Behaviour that the
abstract methods only declare (the CAVOK predicate, mission application, the
renderer assembly, the station-name fallback) is modelled from the spec, marked
`Modelled from the spec:` in the corresponding doc comments.  Calls into
external collaborators (the avwx station validator, the station-name database,
the mission-archive file system) are passed in as explicit parameters.
-/

namespace ElibWx

/-- Modelled from the spec: the process-wide configured placeholder station
code (`Config.dummy_icao_code`; the `Config` class is outside `src/`, and the
getter docstring in `weather_abc.py` says it defaults to "XXXX"). -/
def Config.dummy_icao_code : String := "XXXX"

/-- One cloud layer of the observation (`avwx.structs.Cloud`); only the base
altitude matters for the claims below. -/
structure Cloud where
  base_ft : Nat
deriving Repr, DecidableEq

/-- Shallow embedding of the `Weather` data fields used by the claims.
`_station_icao` is the possibly-unset private attribute of the Python object:
`none` models the state where the attribute was never assigned, so that
reading it raises `AttributeError`. -/
structure Weather where
  _station_icao : Option String
  station_name : String
  visibility_m : Nat
  cloud_layers : List Cloud
  other : List String
deriving Repr, DecidableEq

/-- Error kinds of the contract (spec section 7): station validation,
mission-archive read, mission-archive write. -/
inductive ElibWxError
  | stationValidation (code : String)
  | missionRead (path : String)
  | missionWrite (path : String)
deriving Repr, DecidableEq

/-- Post-state visible to the caller after a fallible operation: a raised
error leaves the original state in place (Python exception semantics). -/
def exceptState {α : Type} (s : α) (r : Except ElibWxError α) : α :=
  match r with
  | .ok s' => s'
  | .error _ => s

/-- The `station_icao` getter (`weather_abc.py` lines 45-58): return the
private `_station_icao` attribute; if it was never assigned (the
`AttributeError` branch), return the configured dummy ICAO code. -/
def Weather.station_icao (w : Weather) : String :=
  match w._station_icao with
  | some v => v
  | none => Config.dummy_icao_code

/-- The `_set_station_name` step (abstract in `weather_abc.py`).
Modelled from the spec: looks the current ICAO code up in the external station
database (`lookup`); a failed lookup resolves to the sentinel
"unknown station" instead of raising. -/
def Weather._set_station_name (w : Weather) (lookup : String → Option String) : Weather :=
  { w with station_name := (lookup w.station_icao).getD "unknown station" }

/-- The `station_icao` setter (`weather_abc.py` lines 60-71): if the new value
differs from the dummy ICAO code, run station validation first
(`avwx.core.valid_station`, passed in as the predicate `valid`; a `false`
result models the `BadStation` exception it raises); only then store the value
and recompute the station name via `_set_station_name`. -/
def Weather.station_icao_set (valid : String → Bool) (lookup : String → Option String)
    (w : Weather) (value : String) : Except ElibWxError Weather :=
  if value ≠ Config.dummy_icao_code ∧ valid value = false then
    .error (.stationValidation value)
  else
    .ok (({ w with _station_icao := some value })._set_station_name lookup)

/-- Modelled from the spec: the CAVOK visibility threshold (visibility ≥ 10 km). -/
def cavok_visibility_threshold_m : Nat := 10000

/-- Modelled from the spec: the CAVOK cloud threshold (no cloud below 5000 ft). -/
def cavok_cloud_threshold_ft : Nat := 5000

/-- The `is_cavok` derived boolean (abstract in `weather_abc.py`).
Modelled from the spec: true iff visibility is at or above the CAVOK
threshold, no cloud layer lies below the cloud threshold, and no significant
weather phenomena (entries in `other`) are present. -/
def Weather.is_cavok (w : Weather) : Bool :=
  decide (cavok_visibility_threshold_m ≤ w.visibility_m)
    && w.cloud_layers.all (fun c => decide (cavok_cloud_threshold_ft ≤ c.base_ft))
    && w.other.isEmpty

/-- The simulator-side weather value object (`DCSWeather`); modelled from the
spec as the subset of condition fields carried by a mission, each within the
simulator-representable range. -/
structure DCSWeather where
  visibility_m : Nat
  cloud_base_ft : Nat
deriving Repr, DecidableEq

/-- Modelled from the spec: upper bound of the simulator-representable
visibility range. -/
def dcs_max_visibility_m : Nat := 80000

/-- Modelled from the spec: upper bound of the simulator-representable cloud
base range. -/
def dcs_max_cloud_base_ft : Nat := 20000

/-- The in-memory mission representation (`elib_miz.Mission`); modelled from
the spec as a weather block plus the remaining (non-weather) mission content. -/
structure Mission where
  weather : DCSWeather
  non_weather : List (String × String)
deriving Repr, DecidableEq

/-- The `generate_dcs_weather` operation (abstract in `weather_abc.py`).
Modelled from the spec: maps condition fields onto the simulator's constrained
weather model, clamping each value into the representable range. -/
def Weather.generate_dcs_weather (w : Weather) : DCSWeather :=
  { visibility_m := min dcs_max_visibility_m w.visibility_m,
    cloud_base_ft :=
      min dcs_max_cloud_base_ft (((w.cloud_layers.head?).map Cloud.base_ft).getD 0) }

/-- The `apply_to_mission_dict` operation (abstract in `weather_abc.py`; its
docstring: generates a `DCSWeather` object from self and creates a new
`elib_miz.Mission` object out of it).  Modelled from the spec: a pure
transform returning a new mission whose weather block is overwritten and whose
remaining content is kept. -/
def Weather.apply_to_mission_dict (w : Weather) (mission : Mission) : Mission :=
  { mission with weather := w.generate_dcs_weather }

/-- The `_from_miz_file` construction path (abstract in `weather_abc.py`).
Modelled from the spec: extracts the weather block of an existing mission into
a fresh `Weather` instance; the station identifier stays unset. -/
def Weather._from_miz_file (m : Mission) : Weather :=
  { _station_icao := none,
    station_name := "",
    visibility_m := m.weather.visibility_m,
    cloud_layers := [⟨m.weather.cloud_base_ft⟩],
    other := [] }

/-- A mission-archive file on disk: either a corrupt/unparsable blob or a
parsed mission. -/
inductive MizFile
  | corrupt (raw : String)
  | mission (m : Mission)
deriving Repr, DecidableEq

/-- The file system holding mission archives, as a path-indexed association
list (most recent write first). -/
def FileSys : Type := List (String × MizFile)

/-- Read the file stored at `path`, `none` when no such file exists. -/
def fsRead (fs : FileSys) (path : String) : Option MizFile :=
  (fs.find? (fun p => p.1 == path)).map Prod.snd

/-- Store `f` at `path` (shadowing any previous file there). -/
def fsWrite (fs : FileSys) (path : String) (f : MizFile) : FileSys :=
  (path, f) :: fs

/-- The `apply_to_miz` operation (abstract in `weather_abc.py`).
Modelled from the spec: fails with a mission-write error when `out_file`
already exists and `overwrite` is false; fails with a mission-read error when
`source_file` is missing or cannot be parsed; otherwise writes the mission
with the weather applied to `out_file`. -/
def Weather.apply_to_miz (w : Weather) (fs : FileSys) (source_file out_file : String)
    (overwrite : Bool) : Except ElibWxError FileSys :=
  if (fsRead fs out_file).isSome ∧ overwrite = false then
    .error (.missionWrite out_file)
  else
    match fsRead fs source_file with
    | none => .error (.missionRead source_file)
    | some (.corrupt _) => .error (.missionRead source_file)
    | some (.mission m) =>
      .ok (fsWrite fs out_file (.mission (w.apply_to_mission_dict m)))

/-- The family of per-field sub-renderers (abstract methods of
`weather_abc.py`): each takes the `spoken` flag, except `_others_as_str`,
which the source declares without it. -/
structure WeatherRenderer where
  _make_str_intro : Weather → Bool → String
  _wind_as_str : Weather → Bool → String
  _visibility_as_str : Weather → Bool → String
  _temperature_as_str : Weather → Bool → String
  _dew_point_as_str : Weather → Bool → String
  _altimeter_as_str : Weather → Bool → String
  _clouds_as_str : Weather → Bool → String
  _remarks_as_str : Weather → Bool → String
  _others_as_str : Weather → String

/-- The internal `_as_str` renderer (abstract in `weather_abc.py`).
Modelled from the spec: assembles one intro + body string from the per-field
sub-renderers, parameterized only by the `spoken` flag and the field values. -/
def WeatherRenderer._as_str (r : WeatherRenderer) (w : Weather) (spoken : Bool) : String :=
  r._make_str_intro w spoken
    ++ r._wind_as_str w spoken
    ++ r._visibility_as_str w spoken
    ++ r._temperature_as_str w spoken
    ++ r._dew_point_as_str w spoken
    ++ r._altimeter_as_str w spoken
    ++ r._clouds_as_str w spoken
    ++ r._remarks_as_str w spoken
    ++ r._others_as_str w

/-- The `as_str` entry point (`weather_abc.py` lines 245-250): delegates to
`_as_str` with `spoken=False`. -/
def WeatherRenderer.as_str (r : WeatherRenderer) (w : Weather) : String :=
  r._as_str w false

/-- The `as_speech` entry point (`weather_abc.py` lines 252-257): delegates to
`_as_str` with `spoken=True`. -/
def WeatherRenderer.as_speech (r : WeatherRenderer) (w : Weather) : String :=
  r._as_str w true

/-- C1: `is_cavok` is true iff visibility is at or above the CAVOK threshold,
no cloud layer lies below the cloud threshold, and no significant weather
phenomena (entries in `other`) are present. -/
theorem is_cavok_iff (w : Weather) :
    w.is_cavok = true ↔
      cavok_visibility_threshold_m ≤ w.visibility_m ∧
      (∀ c ∈ w.cloud_layers, ¬ c.base_ft < cavok_cloud_threshold_ft) ∧
      w.other = [] := by
  simp [Weather.is_cavok, List.all_eq_true, List.isEmpty_iff, Nat.not_lt, and_assoc]

/-- C2: on a Weather instance whose station identifier was never assigned,
reading `station_icao` raises no error and returns exactly the configured
placeholder code `Config.dummy_icao_code`. -/
theorem station_icao_unset_returns_dummy (w : Weather)
    (h : w._station_icao = none) :
    w.station_icao = Config.dummy_icao_code := by
  simp [Weather.station_icao, h]

/-- Witness for C2: a concrete instance with the identifier never assigned. -/
theorem station_icao_unset_returns_dummy_witness :
    (Weather.mk none "" 0 [] []).station_icao = Config.dummy_icao_code :=
  station_icao_unset_returns_dummy (Weather.mk none "" 0 [] []) rfl

/-- C3: assigning a non-placeholder value that fails station validation makes
the setter raise immediately (fail-fast) rather than storing the value, and
assigning the placeholder code itself never triggers validation (the outcome
does not depend on the validator at all). -/
theorem station_icao_set_fail_fast (valid : String → Bool)
    (lookup : String → Option String) (w : Weather) (value : String) :
    (value ≠ Config.dummy_icao_code → valid value = false →
      Weather.station_icao_set valid lookup w value =
        .error (.stationValidation value)) ∧
    (∀ valid' : String → Bool,
      Weather.station_icao_set valid lookup w Config.dummy_icao_code =
        Weather.station_icao_set valid' lookup w Config.dummy_icao_code) := by
  constructor
  · intro hne hval
    simp [Weather.station_icao_set, hne, hval]
  · intro valid'
    simp [Weather.station_icao_set]

/-- Witness for C3: an always-rejecting validator makes the assignment of a
non-placeholder code raise a station-validation error. -/
theorem station_icao_set_fail_fast_witness :
    Weather.station_icao_set (fun _ => false) (fun _ => none)
        (Weather.mk none "" 0 [] []) "KLSV" =
      .error (.stationValidation "KLSV") :=
  (station_icao_set_fail_fast (fun _ => false) (fun _ => none)
      (Weather.mk none "" 0 [] []) "KLSV").1 (by decide) rfl

/-- C4: every successful assignment to `station_icao` recomputes the station
name from the newly stored identifier, and a failed name lookup resolves to
the sentinel "unknown station" instead of raising. -/
theorem station_icao_set_updates_name (valid : String → Bool)
    (lookup : String → Option String) (w w' : Weather) (value : String)
    (h : Weather.station_icao_set valid lookup w value = .ok w') :
    w'.station_name = (lookup value).getD "unknown station" ∧
    (lookup value = none → w'.station_name = "unknown station") := by
  unfold Weather.station_icao_set at h
  split at h
  · exact absurd h (by simp)
  · simp only [Except.ok.injEq] at h
    subst h
    refine ⟨by simp [Weather._set_station_name, Weather.station_icao], ?_⟩
    intro hnone
    simp [Weather._set_station_name, Weather.station_icao, hnone]

/-- Witness for C4: a successful assignment under a lookup that always fails
yields the sentinel station name. -/
theorem station_icao_set_updates_name_witness :
    (Weather.mk (some "KLSV") "unknown station" 0 [] []).station_name =
        ((none : Option String).getD "unknown station") ∧
    ((none : Option String) = none →
      (Weather.mk (some "KLSV") "unknown station" 0 [] []).station_name =
        "unknown station") :=
  station_icao_set_updates_name (fun _ => true) (fun _ => none)
    (Weather.mk none "" 0 [] [])
    (Weather.mk (some "KLSV") "unknown station" 0 [] []) "KLSV" rfl

/-- C5: `apply_to_mission_dict` is a pure transform returning a new mission
value (the input argument is left unmodified by construction), and the result
differs from the input only in the weather block: all non-weather content is
unchanged. -/
theorem apply_to_mission_dict_frame (w : Weather) (m : Mission) :
    (w.apply_to_mission_dict m).non_weather = m.non_weather := rfl

/-- C6: `apply_to_miz` fails with a mission-write error when the output file
already exists and overwrite is false, leaving the output file's contents
unchanged; and, when the write guard passes, fails with a mission-read error
whenever the source file is missing or cannot be parsed, surfacing the error
to the caller unmodified. -/
theorem apply_to_miz_error_handling (w : Weather) (fs : FileSys)
    (src out : String) (overwrite : Bool) :
    ((fsRead fs out).isSome = true → overwrite = false →
      w.apply_to_miz fs src out overwrite = .error (.missionWrite out) ∧
      fsRead (exceptState fs (w.apply_to_miz fs src out overwrite)) out =
        fsRead fs out) ∧
    (¬((fsRead fs out).isSome = true ∧ overwrite = false) →
      (fsRead fs src = none ∨ (∃ raw, fsRead fs src = some (.corrupt raw))) →
      w.apply_to_miz fs src out overwrite = .error (.missionRead src)) := by
  constructor
  · intro hout hov
    refine ⟨by simp [Weather.apply_to_miz, hout, hov], ?_⟩
    simp [Weather.apply_to_miz, hout, hov, exceptState]
  · intro hguard hsrc
    rcases hsrc with hnone | ⟨raw, hraw⟩
    · simp [Weather.apply_to_miz, hguard, hnone]
    · simp [Weather.apply_to_miz, hguard, hraw]

/-- Witness for C6: with the output file already on disk and overwrite false,
the call fails with a mission-write error and the output file is untouched. -/
theorem apply_to_miz_error_handling_witness :
    (Weather.mk none "" 0 [] []).apply_to_miz
        ([("out.miz", MizFile.corrupt "x")] : FileSys) "src.miz" "out.miz" false =
      .error (.missionWrite "out.miz") ∧
    fsRead (exceptState ([("out.miz", MizFile.corrupt "x")] : FileSys)
        ((Weather.mk none "" 0 [] []).apply_to_miz
          ([("out.miz", MizFile.corrupt "x")] : FileSys) "src.miz" "out.miz" false))
        "out.miz" =
      fsRead ([("out.miz", MizFile.corrupt "x")] : FileSys) "out.miz" :=
  (apply_to_miz_error_handling (Weather.mk none "" 0 [] [])
      ([("out.miz", MizFile.corrupt "x")] : FileSys) "src.miz" "out.miz" false).1
    (by decide) rfl

/-- C7: constructing a Weather from a mission and applying it back unchanged
preserves the mission exactly — all non-weather content is kept and the
weather block is reproduced — provided the mission's weather values are within
the simulator-representable ranges (as any mission-file weather is). -/
theorem from_miz_round_trip (m : Mission)
    (hvis : m.weather.visibility_m ≤ dcs_max_visibility_m)
    (hbase : m.weather.cloud_base_ft ≤ dcs_max_cloud_base_ft) :
    (Weather._from_miz_file m).apply_to_mission_dict m = m := by
  cases m with
  | mk wthr rest =>
    cases wthr with
    | mk v b =>
      simp only [Mission.mk.injEq, and_true, Weather._from_miz_file,
        Weather.apply_to_mission_dict, Weather.generate_dcs_weather]
      simp_all [DCSWeather.mk.injEq, min_eq_right]

/-- Witness for C7: a concrete in-range mission round-trips exactly. -/
theorem from_miz_round_trip_witness :
    (Weather._from_miz_file
        (Mission.mk (DCSWeather.mk 5000 3000) [("theatre", "Caucasus")])).apply_to_mission_dict
        (Mission.mk (DCSWeather.mk 5000 3000) [("theatre", "Caucasus")]) =
      Mission.mk (DCSWeather.mk 5000 3000) [("theatre", "Caucasus")] :=
  from_miz_round_trip (Mission.mk (DCSWeather.mk 5000 3000) [("theatre", "Caucasus")])
    (by decide) (by decide)

/-- C8: `as_str` returns exactly the internal renderer at `spoken = false` and
`as_speech` returns exactly the internal renderer at `spoken = true`: both
public renderers delegate to the same `_as_str`. -/
theorem as_str_as_speech_delegate (r : WeatherRenderer) (w : Weather) :
    r.as_str w = r._as_str w false ∧ r.as_speech w = r._as_str w true :=
  ⟨rfl, rfl⟩

/-- C9: rendering is deterministic given identical field values: two calls on
instances with equal fields yield identical strings, for both `as_str` and
`as_speech`. -/
theorem rendering_deterministic (r : WeatherRenderer) (w w' : Weather)
    (h : w = w') :
    r.as_str w = r.as_str w' ∧ r.as_speech w = r.as_speech w' := by
  subst h
  exact ⟨rfl, rfl⟩

/-- Witness for C9: a concrete renderer and instance, called twice. -/
theorem rendering_deterministic_witness :
    (WeatherRenderer.mk (fun _ _ => "intro ") (fun _ _ => "wind ")
        (fun _ _ => "vis ") (fun _ _ => "temp ") (fun _ _ => "dew ")
        (fun _ _ => "alt ") (fun _ _ => "clouds ") (fun _ _ => "rmk ")
        (fun _ => "other")).as_str (Weather.mk none "" 0 [] []) =
      (WeatherRenderer.mk (fun _ _ => "intro ") (fun _ _ => "wind ")
        (fun _ _ => "vis ") (fun _ _ => "temp ") (fun _ _ => "dew ")
        (fun _ _ => "alt ") (fun _ _ => "clouds ") (fun _ _ => "rmk ")
        (fun _ => "other")).as_str (Weather.mk none "" 0 [] []) ∧
    (WeatherRenderer.mk (fun _ _ => "intro ") (fun _ _ => "wind ")
        (fun _ _ => "vis ") (fun _ _ => "temp ") (fun _ _ => "dew ")
        (fun _ _ => "alt ") (fun _ _ => "clouds ") (fun _ _ => "rmk ")
        (fun _ => "other")).as_speech (Weather.mk none "" 0 [] []) =
      (WeatherRenderer.mk (fun _ _ => "intro ") (fun _ _ => "wind ")
        (fun _ _ => "vis ") (fun _ _ => "temp ") (fun _ _ => "dew ")
        (fun _ _ => "alt ") (fun _ _ => "clouds ") (fun _ _ => "rmk ")
        (fun _ => "other")).as_speech (Weather.mk none "" 0 [] []) :=
  rendering_deterministic
    (WeatherRenderer.mk (fun _ _ => "intro ") (fun _ _ => "wind ")
      (fun _ _ => "vis ") (fun _ _ => "temp ") (fun _ _ => "dew ")
      (fun _ _ => "alt ") (fun _ _ => "clouds ") (fun _ _ => "rmk ")
      (fun _ => "other"))
    (Weather.mk none "" 0 [] []) (Weather.mk none "" 0 [] []) rfl

/-- C10: the setter is atomic on failure: when a non-placeholder value fails
validation, the raised error leaves the instance exactly as it was —
`_station_icao` keeps its previous value (or stays unset) and `station_name`
is not recomputed — because assignment and name update happen only after
validation succeeds. -/
theorem station_icao_set_atomic (valid : String → Bool)
    (lookup : String → Option String) (w : Weather) (value : String)
    (hne : value ≠ Config.dummy_icao_code) (hval : valid value = false) :
    Weather.station_icao_set valid lookup w value =
      .error (.stationValidation value) ∧
    exceptState w (Weather.station_icao_set valid lookup w value) = w := by
  refine ⟨by simp [Weather.station_icao_set, hne, hval], ?_⟩
  simp [Weather.station_icao_set, hne, hval, exceptState]

/-- Witness for C10: a rejected assignment leaves a concrete instance with a
previously stored identifier and name unchanged. -/
theorem station_icao_set_atomic_witness :
    Weather.station_icao_set (fun _ => false) (fun _ => some "Brussels")
        (Weather.mk (some "EBBR") "Brussels" 9999 [] []) "LFPG" =
      .error (.stationValidation "LFPG") ∧
    exceptState (Weather.mk (some "EBBR") "Brussels" 9999 [] [])
        (Weather.station_icao_set (fun _ => false) (fun _ => some "Brussels")
          (Weather.mk (some "EBBR") "Brussels" 9999 [] []) "LFPG") =
      Weather.mk (some "EBBR") "Brussels" 9999 [] [] :=
  station_icao_set_atomic (fun _ => false) (fun _ => some "Brussels")
    (Weather.mk (some "EBBR") "Brussels" 9999 [] []) "LFPG" (by decide) rfl

end ElibWx
